import Mathlib

/-!
Verification of the retry orchestration engine of
`azure-functions-servicebus-retries`.

Shallow embedding of:
  - `src/implementation/sessionOrderingStore.ts` (in-memory session ordering store)
  - `src/implementation/backoff.ts` (`calculateBackoffSeconds`)
  - `src/implementation/serviceBusRetryTrigger.ts` (retry orchestrator)

Conventions of the embedding:
  - Timestamps (`Date` values, `Date.now()`) are integers, milliseconds since
    the epoch.  The `expiresAtUtc` field, an ISO string in the source parsed
    with `fromZonedTime(_, "UTC")`, is embedded directly as the parsed
    epoch-millisecond value.
  - JavaScript `number` values used in arithmetic (delays, factors, jitter)
    are rationals; `Math.round` is `jsRound` below (round half toward
    positive infinity), `Math.max(0, _)` is `max 0 _`.
  - `Math.random()` is passed in explicitly as the `rand` argument.
  - `undefined`-able values are `Option`s.  Thrown engine errors are the
    `EngineError` values of an `Except`-style result; a published message is
    an element of the `published` list of a result (the argument of a
    `sender.scheduleMessages` call).
  - The `Map<string, ScheduledEntry[]>` store is an association list with
    the same get / set / delete-when-empty behaviour.
-/

/-- JavaScript `Math.round`: round half toward positive infinity. -/
def jsRound (q : Rat) : Int := Int.floor (q + 1/2)

/-- An entry of the session ordering store
(`sessionOrderingStore.ts`, `type ScheduledEntry`). -/
structure ScheduledEntry where
  sequenceNumber : Int
  scheduledTime : Int
  deriving DecidableEq, Repr

/-- The module-level `store : Map<string, ScheduledEntry[]>` of
`sessionOrderingStore.ts`, as an association list in key insertion order. -/
abbrev Store := List (String × List ScheduledEntry)

/-- `store.get(sessionId)` on the association list. -/
def storeGet : Store → String → Option (List ScheduledEntry)
  | [], _ => none
  | (k, es) :: rest, sid => if k == sid then some es else storeGet rest sid

/-- Fold of the entry loop of `getLatestScheduledTimeForLowerSequence`:
keep the maximum `scheduledTime` among entries with a strictly lower
`sequenceNumber`. -/
def latestLowerIn (entries : List ScheduledEntry) (sequenceNumber : Int) : Option Int :=
  entries.foldl
    (fun latest e =>
      if e.sequenceNumber < sequenceNumber then
        match latest with
        | none => some e.scheduledTime
        | some l => if l < e.scheduledTime then some e.scheduledTime else some l
      else latest)
    none

/-- `getLatestScheduledTimeForLowerSequence(sessionId, sequenceNumber)` of
`sessionOrderingStore.ts`. -/
def getLatestScheduledTimeForLowerSequence (store : Store) (sessionId : String)
    (sequenceNumber : Int) : Option Int :=
  match storeGet store sessionId with
  | none => none
  | some entries => latestLowerIn entries sequenceNumber

/-- `addScheduledEntry(sessionId, sequenceNumber, scheduledTime)` of
`sessionOrderingStore.ts`: push onto the existing array of the session, or
create the session key with a one-element array. -/
def addScheduledEntry : Store → String → Int → Int → Store
  | [], sessionId, sequenceNumber, scheduledTime =>
      [(sessionId, [⟨sequenceNumber, scheduledTime⟩])]
  | (k, es) :: rest, sessionId, sequenceNumber, scheduledTime =>
      if k == sessionId then (k, es ++ [⟨sequenceNumber, scheduledTime⟩]) :: rest
      else (k, es) :: addScheduledEntry rest sessionId sequenceNumber scheduledTime

/-- The `findIndex` / `splice(index, 1)` pair of `removeScheduledEntry`:
drop the first entry with the given sequence number, if any. -/
def removeSeqOnce : List ScheduledEntry → Int → List ScheduledEntry
  | [], _ => []
  | e :: rest, sequenceNumber =>
      if e.sequenceNumber == sequenceNumber then rest
      else e :: removeSeqOnce rest sequenceNumber

/-- `removeScheduledEntry(sessionId, sequenceNumber)` of
`sessionOrderingStore.ts`: drop the first matching entry and delete the
session key when its array becomes empty. -/
def removeScheduledEntry : Store → String → Int → Store
  | [], _, _ => []
  | (k, es) :: rest, sessionId, sequenceNumber =>
      if k == sessionId then
        let es2 := removeSeqOnce es sequenceNumber
        if es2.isEmpty then rest else (k, es2) :: rest
      else (k, es) :: removeScheduledEntry rest sessionId sequenceNumber

/-- `clearSession(sessionId)` of `sessionOrderingStore.ts`. -/
def clearSession : Store → String → Store
  | store, sessionId => store.filter (fun p => !(p.1 == sessionId))

/-- `RetryConfiguration` of `backoff.ts`.  `retryStrategy` is kept as an
optional string, exactly as wide as the untrusted runtime value the source
switches on (its `else` branch throws on unknown strings). -/
structure RetryConfiguration where
  maxRetries : Int
  retryStrategy : Option String
  delaySeconds : Rat
  maxDelaySeconds : Option Rat
  exponentialFactor : Option Rat
  linearIncreaseSeconds : Option Rat
  jitter : Option Rat
  deriving DecidableEq, Repr

/-- The strategy branch of `calculateBackoffSeconds` (the `if`/`else if`
chain before jitter, rounding and flooring), with the defaulting of the
destructuring at the top of the function: strategy defaults to `"fixed"`,
`linearIncreaseSeconds` to `1000`, `exponentialFactor` to `2`. -/
def rawStrategyDelay (config : RetryConfiguration) (retryCount : Int) :
    Except String Rat :=
  let retryStrategy := config.retryStrategy.getD "fixed"
  let linearIncreaseSeconds := config.linearIncreaseSeconds.getD 1000
  let exponentialFactor := config.exponentialFactor.getD 2
  if retryStrategy = "fixed" then
    .ok config.delaySeconds
  else if retryStrategy = "exponential" then
    let d := config.delaySeconds * exponentialFactor ^ retryCount
    .ok (match config.maxDelaySeconds with
         | some m => min d m
         | none => d)
  else if retryStrategy = "linear" then
    .ok (config.delaySeconds + linearIncreaseSeconds * retryCount)
  else
    .error ("Unknown retry strategy: " ++ retryStrategy)

/-- `calculateBackoffSeconds(config, retryCount)` of `backoff.ts`.  `rand`
is the value drawn by `Math.random()` in the jitter branch.  The result is
`Math.max(0, Math.round(delay))`. -/
def calculateBackoffSeconds (config : RetryConfiguration) (retryCount : Int)
    (rand : Rat) : Except String Int :=
  let jitter := config.jitter.getD 0
  match rawStrategyDelay config retryCount with
  | .error e => .error e
  | .ok delay0 =>
      let delay :=
        if 0 < jitter then delay0 + delay0 * jitter * (rand * 2 - 1) else delay0
      .ok (max 0 (jsRound delay))

/-- `ServiceBusRetryConfiguration` of `serviceBusRetryTrigger.ts`:
`RetryConfiguration` plus the trigger-level fields. -/
structure ServiceBusRetryConfiguration extends RetryConfiguration where
  sendConnectionString : String
  preserveSessionOrdering : Option Bool
  sessionOrderingIncrementMs : Option Int
  preserveExpiresAt : Option Bool
  deriving DecidableEq, Repr

/-- `ServiceBusBindingData` of `serviceBusRetryTrigger.ts`.  `expiresAtUtc`
is the epoch-millisecond value of the source string (parsed as UTC). -/
structure ServiceBusBindingData where
  messageId : Option String
  enqueuedTimeUtc : Option String
  expiresAtUtc : Option Int
  sessionId : Option String
  sequenceNumber : Option Int
  deriving DecidableEq, Repr

/-- The fields of `context.triggerMetadata` read by the orchestrator. -/
structure TriggerMetadata where
  messageId : Option String
  enqueuedTimeUtc : Option String
  expiresAtUtc : Option Int
  sessionId : Option String
  sequenceNumber : Option Int
  deriving DecidableEq, Repr

/-- `ServiceBusRetryMessageWrapper<T>` of `serviceBusRetryTrigger.ts`: the
envelope republished on every retry or deferral. -/
structure ServiceBusRetryMessageWrapper (T : Type) where
  message : T
  originalBindingData : ServiceBusBindingData
  publishCount : Int
  deriving DecidableEq, Repr

/-- The body delivered to `executeWithRetries`: either a raw first-delivery
payload or a retry envelope.  This is the outcome of the source duck-type
check that the body is a non-null object with a `publishCount` field. -/
inductive IncomingMessage (T : Type) where
  | raw (payload : T)
  | wrapped (w : ServiceBusRetryMessageWrapper T)
  deriving DecidableEq, Repr

/-- Outcome of the user handler invocation: its resolved value, or any
thrown condition (the source `catch` discards the thrown value). -/
inductive HandlerOutcome (S : Type) where
  | success (s : S)
  | failure
  deriving DecidableEq, Repr

/-- The terminal errors thrown by the engine (`src/util/error.ts`), plus the
unknown-strategy error thrown by `calculateBackoffSeconds`.  The two id
fields are `originalBindingData.messageId` and `triggerMetadata.messageId`. -/
inductive EngineError where
  | maxRetriesReached (originalMessageId currentMessageId : Option String)
  | messageExpired (originalMessageId currentMessageId : Option String)
  | unknownStrategy (message : String)
  deriving DecidableEq, Repr

/-- The `ServiceBusMessage` built by `resendMessage` and handed to
`sender.scheduleMessages` (fields the engine sets). -/
structure ServiceBusMessage (T : Type) where
  body : ServiceBusRetryMessageWrapper T
  scheduledEnqueueTimeUtc : Int
  sessionId : Option String
  timeToLive : Option Int
  deriving DecidableEq, Repr

/-- Result of a republish attempt: the messages passed to
`sender.scheduleMessages`, the store after the attempt, and the thrown
engine error if any. -/
structure ResendResult (T : Type) where
  published : List (ServiceBusMessage T)
  store : Store
  error : Option EngineError
  deriving DecidableEq, Repr

/-- Result of one whole `executeWithRetries` invocation. -/
structure InvocationResult (T S : Type) where
  published : List (ServiceBusMessage T)
  store : Store
  outcome : Except EngineError (Option S)
  deriving Repr

/-- `buildRetryInvocationContextAndMessage` of `serviceBusRetryTrigger.ts`:
restore `(originalBindingData, publishCount)` from a wrapped envelope, or
synthesize them from trigger metadata on a first delivery.  Returns
`(originalBindingData, publishCount, unwrappedMessage)`. -/
def buildRetryInvocationContextAndMessage {T : Type} (meta : TriggerMetadata) :
    IncomingMessage T → ServiceBusBindingData × Int × T
  | .wrapped w => (w.originalBindingData, w.publishCount, w.message)
  | .raw payload =>
      ({ messageId := meta.messageId
         enqueuedTimeUtc := meta.enqueuedTimeUtc
         expiresAtUtc := meta.expiresAtUtc
         sessionId := meta.sessionId
         sequenceNumber := meta.sequenceNumber }, 1, payload)

/-- `applyTtlIfNeeded` of `serviceBusRetryTrigger.ts`.  When
`preserveExpiresAt !== false` and an original expiry is recorded, set
`timeToLive = expiry - now` on the outgoing message, or — when that is not
positive — remove the ordering entry (if ordering fields are present) and
throw `MessageExpiredError`.  Returns the updated (or untouched) message,
or the thrown error, together with the store. -/
def applyTtlIfNeeded {T : Type} (cfg : ServiceBusRetryConfiguration)
    (bd : ServiceBusBindingData) (currentMessageId : Option String)
    (now : Int) (store : Store) (msg : ServiceBusMessage T) :
    Except EngineError (ServiceBusMessage T) × Store :=
  if cfg.preserveExpiresAt ≠ some false then
    match bd.expiresAtUtc with
    | some expiry =>
        let timeToLive := expiry - now
        if timeToLive ≤ 0 then
          let store1 :=
            match cfg.preserveSessionOrdering, bd.sessionId, bd.sequenceNumber with
            | some true, some sid, some sq => removeScheduledEntry store sid sq
            | _, _, _ => store
          (.error (.messageExpired bd.messageId currentMessageId), store1)
        else
          (.ok { msg with timeToLive := some timeToLive }, store)
    | none => (.ok msg, store)
  else (.ok msg, store)

/-- The condition `timeToLive === undefined || timeToLive > 1` guarding the
`addScheduledEntry` call in `resendMessage`. -/
def ttlAllowsOrderingEntry : Option Int → Bool
  | none => true
  | some t => 1 < t

/-- `resendMessage` of `serviceBusRetryTrigger.ts`: build the outgoing
`ServiceBusMessage` (body, schedule, session affinity), apply the expiry
guard, record the ordering entry when `preserveSessionOrdering === true`
and the time-to-live condition holds, then publish.  The source reads the
session fields with non-null assertions at the `addScheduledEntry` call;
the model performs the add when both fields are present, the contract of
those assertions. -/
def resendMessage {T : Type} (cfg : ServiceBusRetryConfiguration)
    (bd : ServiceBusBindingData) (currentMessageId : Option String)
    (wrappedMessage : ServiceBusRetryMessageWrapper T) (store : Store)
    (now : Int) (scheduledTime : Int) : ResendResult T :=
  let serviceBusMessage : ServiceBusMessage T :=
    { body := wrappedMessage
      scheduledEnqueueTimeUtc := scheduledTime
      sessionId := bd.sessionId
      timeToLive := none }
  match applyTtlIfNeeded cfg bd currentMessageId now store serviceBusMessage with
  | (.error e, store1) => { published := [], store := store1, error := some e }
  | (.ok msg, store1) =>
      let store2 :=
        match cfg.preserveSessionOrdering, bd.sessionId, bd.sequenceNumber with
        | some true, some sid, some sq =>
            if ttlAllowsOrderingEntry msg.timeToLive then
              addScheduledEntry store1 sid sq scheduledTime
            else store1
        | _, _, _ => store1
      { published := [msg], store := store2, error := none }

/-- `resendWithDelay` of `serviceBusRetryTrigger.ts`: compute the backoff
delay for `publishCount - 1`, schedule at `now + delaySeconds * 1000`,
increment the publish count of the envelope, and republish. -/
def resendWithDelay {T : Type} (cfg : ServiceBusRetryConfiguration)
    (bd : ServiceBusBindingData) (currentMessageId : Option String)
    (publishCount : Int) (payload : T) (store : Store) (now : Int)
    (rand : Rat) : ResendResult T :=
  match calculateBackoffSeconds cfg.toRetryConfiguration (publishCount - 1) rand with
  | .error e => { published := [], store := store, error := some (.unknownStrategy e) }
  | .ok delaySeconds =>
      let scheduledTime := now + delaySeconds * 1000
      let wrappedMessage : ServiceBusRetryMessageWrapper T :=
        { message := payload
          originalBindingData := bd
          publishCount := publishCount + 1 }
      resendMessage cfg bd currentMessageId wrappedMessage store now scheduledTime

/-- `rescheduleForSessionOrderingIfNeeded` of `serviceBusRetryTrigger.ts`:
when ordering is active and a lower-sequence entry is scheduled strictly in
the future, record the deferral entry and republish the unmodified envelope
at that time plus the increment.  `none` means the invocation proceeds to
the handler. -/
def rescheduleForSessionOrderingIfNeeded {T : Type}
    (cfg : ServiceBusRetryConfiguration) (bd : ServiceBusBindingData)
    (currentMessageId : Option String)
    (wrappedMessage : ServiceBusRetryMessageWrapper T) (store : Store)
    (now : Int) : Option (ResendResult T) :=
  let incrementMs := cfg.sessionOrderingIncrementMs.getD 1000
  match cfg.preserveSessionOrdering, bd.sessionId, bd.sequenceNumber with
  | some true, some sessionId, some sequenceNumber =>
      match getLatestScheduledTimeForLowerSequence store sessionId sequenceNumber with
      | some latestLower =>
          if now < latestLower then
            let scheduledTime := latestLower + incrementMs
            let store1 := addScheduledEntry store sessionId sequenceNumber scheduledTime
            some (resendMessage cfg bd currentMessageId wrappedMessage store1 now scheduledTime)
          else none
      | none => none
  | _, _, _ => none

/-- `executeWithRetries` of `serviceBusRetryTrigger.ts`, one invocation:
restore retry state, defer for session ordering if needed, otherwise run
the handler; on success remove the ordering entry, on failure throw
`MaxRetriesReachedError` when exhausted (removing the ordering entry, no
publish) or republish with backoff.  The handler outcome is supplied as an
argument; `.ok none` is the `void` return of the deferral and retry paths. -/
def executeWithRetries {T S : Type} (cfg : ServiceBusRetryConfiguration)
    (meta : TriggerMetadata) (incoming : IncomingMessage T)
    (handlerOutcome : HandlerOutcome S) (store : Store) (now : Int)
    (rand : Rat) : InvocationResult T S :=
  let b := buildRetryInvocationContextAndMessage meta incoming
  let bd := b.1
  let publishCount := b.2.1
  let payload := b.2.2
  let wrappedMessage : ServiceBusRetryMessageWrapper T :=
    { message := payload, originalBindingData := bd, publishCount := publishCount }
  match rescheduleForSessionOrderingIfNeeded cfg bd meta.messageId wrappedMessage store now with
  | some r =>
      { published := r.published, store := r.store
        outcome := match r.error with | some e => .error e | none => .ok none }
  | none =>
      match handlerOutcome with
      | .success s =>
          let store1 :=
            match cfg.preserveSessionOrdering, bd.sessionId, bd.sequenceNumber with
            | some true, some sid, some sq => removeScheduledEntry store sid sq
            | _, _, _ => store
          { published := [], store := store1, outcome := .ok (some s) }
      | .failure =>
          if cfg.maxRetries < publishCount then
            let store1 :=
              match cfg.preserveSessionOrdering, bd.sessionId, bd.sequenceNumber with
              | some true, some sid, some sq => removeScheduledEntry store sid sq
              | _, _, _ => store
            { published := [], store := store1
              outcome := .error (.maxRetriesReached bd.messageId meta.messageId) }
          else
            let r := resendWithDelay cfg bd meta.messageId publishCount payload store now rand
            { published := r.published, store := r.store
              outcome := match r.error with | some e => .error e | none => .ok none }

/-! Helper lemmas. -/

theorem floor_half_q : Int.floor ((1 : Rat)/2) = 0 := by
  rw [Int.floor_eq_zero_iff]
  constructor <;> norm_num

theorem jsRound_intCast (n : Int) : jsRound ((n : Rat)) = n := by
  rw [jsRound, add_comm, Int.floor_add_int, floor_half_q, zero_add]

theorem storeGet_addScheduledEntry (store : Store) (sid : String) (sq t : Int) :
    storeGet (addScheduledEntry store sid sq t) sid =
      some ((storeGet store sid).getD [] ++ [⟨sq, t⟩]) := by
  induction store with
  | nil => simp [addScheduledEntry, storeGet]
  | cons p rest ih =>
      obtain ⟨k, es⟩ := p
      by_cases hk : k == sid
      · simp [addScheduledEntry, storeGet, hk]
      · simp [addScheduledEntry, storeGet, hk, ih]

/-! Configurations used as concrete inputs below. -/

/-- Linear strategy with `linearIncreaseSeconds` omitted and a base delay
different from `1000`. -/
def linearNoIncrementConfig : RetryConfiguration :=
  { maxRetries := 3, retryStrategy := some "linear", delaySeconds := 2000,
    maxDelaySeconds := none, exponentialFactor := none,
    linearIncreaseSeconds := none, jitter := none }

/-- Linear strategy with an explicit increment (the spec §8 example). -/
def linearExampleConfig : RetryConfiguration :=
  { maxRetries := 3, retryStrategy := some "linear", delaySeconds := 1000,
    maxDelaySeconds := none, exponentialFactor := none,
    linearIncreaseSeconds := some 500, jitter := none }

/-- Exponential strategy, base 1000, factor 2, no cap. -/
def exponentialExampleConfig : RetryConfiguration :=
  { maxRetries := 5, retryStrategy := some "exponential", delaySeconds := 1000,
    maxDelaySeconds := none, exponentialFactor := some 2,
    linearIncreaseSeconds := none, jitter := none }

/-- Exponential strategy, base 1000, factor 2, capped at 5000. -/
def exponentialCappedConfig : RetryConfiguration :=
  { maxRetries := 5, retryStrategy := some "exponential", delaySeconds := 1000,
    maxDelaySeconds := some 5000, exponentialFactor := some 2,
    linearIncreaseSeconds := none, jitter := none }

/-- A configuration with the strategy field absent. -/
def absentStrategyConfig : RetryConfiguration :=
  { maxRetries := 5, retryStrategy := none, delaySeconds := 1000,
    maxDelaySeconds := none, exponentialFactor := none,
    linearIncreaseSeconds := none, jitter := none }

/-- C5 counterexample: with the linear strategy and `linearIncreaseSeconds`
omitted, the source computes `delaySeconds + 1000 * retryCount`, not
`delaySeconds + delaySeconds * retryCount` as the claim states — at
base delay 2000 and attempt index 1 the pre-jitter delay is 3000, while the
claimed default-to-baseDelay formula gives 4000. -/
theorem c5_counterexample :
    rawStrategyDelay linearNoIncrementConfig 1 = .ok 3000 ∧
    linearNoIncrementConfig.delaySeconds
        + linearNoIncrementConfig.delaySeconds * 1 ≠ (3000 : Rat) := by
  constructor
  · simp [rawStrategyDelay, linearNoIncrementConfig]
    norm_num
  · simp [linearNoIncrementConfig]
    norm_num

/-- C5 (amended): with the linear strategy, the pre-jitter, pre-rounding
delay equals `delaySeconds + linearIncreaseSeconds * retryCount`, where
`linearIncreaseSeconds` defaults to the constant 1000 when omitted. -/
theorem c5_linear_delay (cfg : RetryConfiguration) (i : Int)
    (h : cfg.retryStrategy = some "linear") :
    rawStrategyDelay cfg i =
      .ok (cfg.delaySeconds + cfg.linearIncreaseSeconds.getD 1000 * i) := by
  simp [rawStrategyDelay, h]

theorem c5_linear_delay_witness :
    rawStrategyDelay linearExampleConfig 3 = .ok 2500 := by
  rw [c5_linear_delay linearExampleConfig 3 rfl]
  simp [linearExampleConfig]
  norm_num

/-- C9: with the exponential strategy and zero jitter, the computed delay is
`delaySeconds * exponentialFactor ^ retryCount` (factor defaulting to 2),
clamped to `maxDelaySeconds` when that is set, rounded to the nearest unit
and floored at 0. -/
theorem c9_exponential_delay (cfg : RetryConfiguration) (i : Int) (rand : Rat)
    (hs : cfg.retryStrategy = some "exponential") (hj : cfg.jitter.getD 0 = 0) :
    calculateBackoffSeconds cfg i rand =
      .ok (max 0 (jsRound
        (match cfg.maxDelaySeconds with
         | some m => min (cfg.delaySeconds * cfg.exponentialFactor.getD 2 ^ i) m
         | none => cfg.delaySeconds * cfg.exponentialFactor.getD 2 ^ i))) := by
  simp [calculateBackoffSeconds, rawStrategyDelay, hs, hj]

theorem c9_exponential_delay_witness :
    calculateBackoffSeconds exponentialExampleConfig 3 0 = .ok 8000 ∧
    calculateBackoffSeconds exponentialCappedConfig 3 0 = .ok 5000 := by
  constructor
  · rw [c9_exponential_delay exponentialExampleConfig 3 0 rfl rfl]
    simp [exponentialExampleConfig]
    norm_num
    rw [show (8000 : Rat) = ((8000 : Int) : Rat) by norm_num, jsRound_intCast]
    omega
  · rw [c9_exponential_delay exponentialCappedConfig 3 0 rfl rfl]
    simp [exponentialCappedConfig]
    norm_num
    rw [show (5000 : Rat) = ((5000 : Int) : Rat) by norm_num, jsRound_intCast]
    omega

/-- C10: with the strategy field absent, `calculateBackoffSeconds` does not
fail with the unknown-strategy error: it behaves exactly as the fixed
strategy, returning the base delay (subject to jitter, rounding and
flooring at 0) independently of the attempt index. -/
theorem c10_absent_strategy_fixed (cfg : RetryConfiguration) (i j : Int)
    (rand : Rat) (h : cfg.retryStrategy = none) :
    calculateBackoffSeconds cfg i rand =
      calculateBackoffSeconds { cfg with retryStrategy := some "fixed" } i rand ∧
    calculateBackoffSeconds cfg i rand =
      .ok (max 0 (jsRound
        (if 0 < cfg.jitter.getD 0 then
           cfg.delaySeconds + cfg.delaySeconds * cfg.jitter.getD 0 * (rand * 2 - 1)
         else cfg.delaySeconds))) ∧
    calculateBackoffSeconds cfg i rand = calculateBackoffSeconds cfg j rand := by
  refine ⟨?_, ?_, ?_⟩ <;> simp [calculateBackoffSeconds, rawStrategyDelay, h]

theorem c10_absent_strategy_fixed_witness :
    calculateBackoffSeconds absentStrategyConfig 7 0 = .ok 1000 := by
  have h := c10_absent_strategy_fixed absentStrategyConfig 7 0 0 rfl
  rw [h.2.1]
  simp [absentStrategyConfig]
  rw [show (1000 : Rat) = ((1000 : Int) : Rat) by norm_num, jsRound_intCast]
  omega

/-- Exhaustive case analysis of `applyTtlIfNeeded`. -/
theorem applyTtlIfNeeded_cases {T : Type} (cfg : ServiceBusRetryConfiguration)
    (bd : ServiceBusBindingData) (curId : Option String) (now : Int)
    (store : Store) (msg : ServiceBusMessage T) :
    (∃ e, cfg.preserveExpiresAt ≠ some false ∧ bd.expiresAtUtc = some e ∧
      e - now ≤ 0 ∧
      applyTtlIfNeeded cfg bd curId now store msg =
        (.error (.messageExpired bd.messageId curId),
         match cfg.preserveSessionOrdering, bd.sessionId, bd.sequenceNumber with
         | some true, some sid, some sq => removeScheduledEntry store sid sq
         | _, _, _ => store)) ∨
    (∃ e, cfg.preserveExpiresAt ≠ some false ∧ bd.expiresAtUtc = some e ∧
      0 < e - now ∧
      applyTtlIfNeeded cfg bd curId now store msg =
        (.ok { msg with timeToLive := some (e - now) }, store)) ∨
    ((cfg.preserveExpiresAt = some false ∨ bd.expiresAtUtc = none) ∧
      applyTtlIfNeeded cfg bd curId now store msg = (.ok msg, store)) := by
  by_cases hpe : cfg.preserveExpiresAt = some false
  · exact Or.inr (Or.inr ⟨Or.inl hpe, by simp [applyTtlIfNeeded, hpe]⟩)
  · rcases he : bd.expiresAtUtc with _ | e
    · exact Or.inr (Or.inr ⟨Or.inr rfl, by simp [applyTtlIfNeeded, hpe, he]⟩)
    · by_cases hle : e - now ≤ 0
      · exact Or.inl ⟨e, hpe, rfl, hle, by simp [applyTtlIfNeeded, hpe, he, hle]⟩
      · exact Or.inr (Or.inl ⟨e, hpe, rfl, by omega,
          by simp [applyTtlIfNeeded, hpe, he, hle]⟩)

/-- C3: whenever `resendMessage` is reached with `preserveExpiresAt` not
disabled and an original expiry recorded, the remaining lifetime
`e - now` decides the outcome: when not positive the attempt fails with
`MessageExpiredError` and publishes nothing, when positive it publishes
with `timeToLive` exactly the remaining lifetime. -/
theorem c3_expiry_guard {T : Type} (cfg : ServiceBusRetryConfiguration)
    (bd : ServiceBusBindingData) (currentMessageId : Option String)
    (w : ServiceBusRetryMessageWrapper T) (store : Store) (now st e : Int)
    (hpe : cfg.preserveExpiresAt ≠ some false) (he : bd.expiresAtUtc = some e) :
    (e - now ≤ 0 →
      (resendMessage cfg bd currentMessageId w store now st).published = [] ∧
      (resendMessage cfg bd currentMessageId w store now st).error =
        some (.messageExpired bd.messageId currentMessageId)) ∧
    (0 < e - now →
      ∃ m, (resendMessage cfg bd currentMessageId w store now st).published = [m] ∧
        m.timeToLive = some (e - now) ∧
        (resendMessage cfg bd currentMessageId w store now st).error = none) := by
  constructor
  · intro hle
    simp [resendMessage, applyTtlIfNeeded, hpe, he, hle]
  · intro hlt
    have hnle : ¬(e - now ≤ 0) := by omega
    simp [resendMessage, applyTtlIfNeeded, hpe, he, hnle]

/-- A session-ordering configuration used for concrete evaluations: fixed
strategy, 5 s delay, ordering on, 500 ms increment, expiry preserved by
default. -/
def orderingConfig : ServiceBusRetryConfiguration :=
  { maxRetries := 3, retryStrategy := some "fixed", delaySeconds := 5,
    maxDelaySeconds := none, exponentialFactor := none,
    linearIncreaseSeconds := none, jitter := none,
    sendConnectionString := "send", preserveSessionOrdering := some true,
    sessionOrderingIncrementMs := some 500, preserveExpiresAt := none }

/-- Binding data of a message whose original expiry (epoch ms 100) has
passed. -/
def expiredBindingData : ServiceBusBindingData :=
  { messageId := some "orig-3", enqueuedTimeUtc := none,
    expiresAtUtc := some 100, sessionId := none, sequenceNumber := none }

/-- Binding data of a message expiring at epoch ms 1000000. -/
def liveBindingData : ServiceBusBindingData :=
  { messageId := some "orig-3b", enqueuedTimeUtc := none,
    expiresAtUtc := some 1000000, sessionId := none, sequenceNumber := none }

theorem c3_expiry_guard_witness :
    ((resendMessage orderingConfig expiredBindingData (some "cur-3")
        ⟨(), expiredBindingData, 2⟩ [] 200 700).published = [] ∧
     (resendMessage orderingConfig expiredBindingData (some "cur-3")
        ⟨(), expiredBindingData, 2⟩ [] 200 700).error =
       some (.messageExpired expiredBindingData.messageId (some "cur-3"))) ∧
    ∃ m, (resendMessage orderingConfig liveBindingData (some "cur-3")
        ⟨(), liveBindingData, 2⟩ [] 200 700).published = [m] ∧
      m.timeToLive = some 999800 ∧
      (resendMessage orderingConfig liveBindingData (some "cur-3")
        ⟨(), liveBindingData, 2⟩ [] 200 700).error = none := by
  have h1 := (c3_expiry_guard orderingConfig expiredBindingData (some "cur-3")
    ⟨(), expiredBindingData, 2⟩ [] 200 700 100 (by simp [orderingConfig]) rfl).1
    (by omega)
  have h2 := (c3_expiry_guard orderingConfig liveBindingData (some "cur-3")
    ⟨(), liveBindingData, 2⟩ [] 200 700 1000000 (by simp [orderingConfig]) rfl).2
    (by omega)
  norm_num at h2
  exact ⟨h1, h2⟩

/-- Binding data with session fields and an expiry one millisecond after
the evaluation instant used below. -/
def ttlEdgeBindingData : ServiceBusBindingData :=
  { messageId := some "orig-8", enqueuedTimeUtc := none,
    expiresAtUtc := some 1001, sessionId := some "C", sequenceNumber := some 7 }

/-- C8 counterexample: a failure-driven republish with ordering fully
active (flag set, session fields present) that issues a publish call but
adds no store entry, because the preserved remaining time-to-live is 1 ms
and the source guards the add with `timeToLive > 1`. -/
theorem c8_counterexample :
    orderingConfig.preserveSessionOrdering = some true ∧
    ttlEdgeBindingData.sessionId = some "C" ∧
    ttlEdgeBindingData.sequenceNumber = some 7 ∧
    (resendWithDelay orderingConfig ttlEdgeBindingData (some "cur-8") 2 ()
       [] 1000 0).error = none ∧
    (resendWithDelay orderingConfig ttlEdgeBindingData (some "cur-8") 2 ()
       [] 1000 0).published ≠ [] ∧
    (resendWithDelay orderingConfig ttlEdgeBindingData (some "cur-8") 2 ()
       [] 1000 0).store = [] := by
  have hb : calculateBackoffSeconds
      { maxRetries := 3, retryStrategy := some "fixed", delaySeconds := 5,
        maxDelaySeconds := none, exponentialFactor := none,
        linearIncreaseSeconds := none, jitter := none } 1 0 = .ok 5 := by
    simp [calculateBackoffSeconds, rawStrategyDelay]
    rw [show (5 : Rat) = ((5 : Int) : Rat) by norm_num, jsRound_intCast]
    omega
  refine ⟨rfl, rfl, rfl, ?_, ?_, ?_⟩ <;>
    simp [resendWithDelay, hb, resendMessage, applyTtlIfNeeded,
      ttlAllowsOrderingEntry, orderingConfig, ttlEdgeBindingData]

/-- C8 (amended): on a republish, when `preserveSessionOrdering` is not
`true` the store is left unchanged; when it is `true` and both session
fields are present and a message is published, a `ScheduledEntry` is added
exactly when the outgoing `timeToLive` is unset or greater than 1 ms. -/
theorem c8_store_add_condition {T : Type} (cfg : ServiceBusRetryConfiguration)
    (bd : ServiceBusBindingData) (curId : Option String)
    (w : ServiceBusRetryMessageWrapper T) (store : Store) (now st : Int) :
    (cfg.preserveSessionOrdering ≠ some true →
      (resendMessage cfg bd curId w store now st).store = store) ∧
    (∀ sid sq m, cfg.preserveSessionOrdering = some true →
      bd.sessionId = some sid → bd.sequenceNumber = some sq →
      (resendMessage cfg bd curId w store now st).published = [m] →
      (resendMessage cfg bd curId w store now st).store =
        (if ttlAllowsOrderingEntry m.timeToLive then
           addScheduledEntry store sid sq st
         else store)) := by
  constructor
  · intro hflag
    have hps : cfg.preserveSessionOrdering = none ∨
        cfg.preserveSessionOrdering = some false := by
      rcases h : cfg.preserveSessionOrdering with _ | b
      · exact Or.inl rfl
      · cases b
        · exact Or.inr rfl
        · exact absurd h hflag
    rcases applyTtlIfNeeded_cases cfg bd curId now store
        ⟨w, st, bd.sessionId, none⟩ with
      ⟨e, h1, h2, h3, heq⟩ | ⟨e, h1, h2, h3, heq⟩ | ⟨h1, heq⟩ <;>
    rcases hps with hps | hps <;>
    simp [resendMessage, heq, hps]
  · intro sid sq m hflag hsid hsq hpub
    rcases applyTtlIfNeeded_cases cfg bd curId now store
        ⟨w, st, bd.sessionId, none⟩ with
      ⟨e, h1, h2, h3, heq⟩ | ⟨e, h1, h2, h3, heq⟩ | ⟨h1, heq⟩
    · rw [hsid] at heq
      simp [resendMessage, heq, hsid] at hpub
    · rw [hsid] at heq
      simp [resendMessage, heq, hflag, hsid, hsq] at hpub ⊢
      rw [← hpub]
    · rw [hsid] at heq
      simp [resendMessage, heq, hflag, hsid, hsq] at hpub ⊢
      rw [← hpub]

/-- A store holding one entry for sequence 5 of session `A`, scheduled at
epoch ms 10000. -/
def lowerSeqStore : Store := [("A", [⟨5, 10000⟩])]

/-- Binding data of a failing delivery for sequence 10 of session `A`. -/
def retryBindingData : ServiceBusBindingData :=
  { messageId := some "orig-1", enqueuedTimeUtc := none, expiresAtUtc := none,
    sessionId := some "A", sequenceNumber := some 10 }

/-- C1 evaluation at the failing input: with ordering active and the store
holding a lower-sequence entry scheduled at 10000 — strictly later than the
computed `scheduledTime` 5000 = now + delay — the failure-driven republish
of `resendWithDelay` is still scheduled at 5000, not at 10500 =
latest + increment; the retry path never queries the store. -/
theorem c1_retry_schedule_ignores_store :
    getLatestScheduledTimeForLowerSequence lowerSeqStore "A" 10 = some 10000 ∧
    orderingConfig.preserveSessionOrdering = some true ∧
    (resendWithDelay orderingConfig retryBindingData (some "cur-1") 2 ()
       lowerSeqStore 0 0).published =
      [{ body := { message := (), originalBindingData := retryBindingData,
                   publishCount := 3 },
         scheduledEnqueueTimeUtc := 5000, sessionId := some "A",
         timeToLive := none }] ∧
    (5000 : Int) < 10000 ∧ (5000 : Int) ≠ 10000 + 500 := by
  have hb : calculateBackoffSeconds
      { maxRetries := 3, retryStrategy := some "fixed", delaySeconds := 5,
        maxDelaySeconds := none, exponentialFactor := none,
        linearIncreaseSeconds := none, jitter := none } 1 0 = .ok 5 := by
    simp [calculateBackoffSeconds, rawStrategyDelay]
    rw [show (5 : Rat) = ((5 : Int) : Rat) by norm_num, jsRound_intCast]
    omega
  refine ⟨by decide, rfl, ?_, by omega, by omega⟩
  simp [resendWithDelay, hb, resendMessage, applyTtlIfNeeded,
    ttlAllowsOrderingEntry, orderingConfig, retryBindingData, lowerSeqStore]

/-- C2: a failure-driven republish carries `publishCount` exactly one
greater than the consumed delivery and the unchanged `originalBindingData`,
and parsing the republished envelope restores exactly those values, whatever
trigger metadata accompanies the redelivery. -/
theorem c2_envelope_roundtrip {T S : Type} (cfg : ServiceBusRetryConfiguration)
    (meta : TriggerMetadata) (w : ServiceBusRetryMessageWrapper T)
    (store : Store) (now : Int) (rand : Rat) (m : ServiceBusMessage T)
    (hdef : rescheduleForSessionOrderingIfNeeded cfg w.originalBindingData
      meta.messageId ⟨w.message, w.originalBindingData, w.publishCount⟩ store now = none)
    (hpub : (executeWithRetries (S := S) cfg meta (.wrapped w) .failure
      store now rand).published = [m]) :
    m.body.publishCount = w.publishCount + 1 ∧
    m.body.originalBindingData = w.originalBindingData ∧
    buildRetryInvocationContextAndMessage meta (.wrapped m.body) =
      (w.originalBindingData, w.publishCount + 1, w.message) ∧
    ∀ meta2 : TriggerMetadata,
      buildRetryInvocationContextAndMessage (T := T) meta2 (.wrapped m.body) =
        buildRetryInvocationContextAndMessage meta (.wrapped m.body) := by
  simp [executeWithRetries, buildRetryInvocationContextAndMessage, hdef] at hpub
  by_cases hmax : cfg.maxRetries < w.publishCount
  · simp [hmax] at hpub
  · simp [hmax] at hpub
    rcases hcb : calculateBackoffSeconds cfg.toRetryConfiguration
        (w.publishCount - 1) rand with e | d
    · simp [resendWithDelay, hcb] at hpub
    · simp [resendWithDelay, hcb] at hpub
      rcases applyTtlIfNeeded_cases cfg w.originalBindingData meta.messageId now
          store ⟨⟨w.message, w.originalBindingData, w.publishCount + 1⟩,
            now + d * 1000, w.originalBindingData.sessionId, none⟩ with
        ⟨e, h1, h2, h3, heq⟩ | ⟨e, h1, h2, h3, heq⟩ | ⟨h1, heq⟩
      · simp [resendMessage, heq] at hpub
      · simp [resendMessage, heq] at hpub
        rw [← hpub]
        simp [buildRetryInvocationContextAndMessage]
      · simp [resendMessage, heq] at hpub
        rw [← hpub]
        simp [buildRetryInvocationContextAndMessage]

/-- A plain configuration with session ordering off and expiry preserved by
default. -/
def plainConfig : ServiceBusRetryConfiguration :=
  { maxRetries := 3, retryStrategy := some "fixed", delaySeconds := 5,
    maxDelaySeconds := none, exponentialFactor := none,
    linearIncreaseSeconds := none, jitter := none,
    sendConnectionString := "send", preserveSessionOrdering := none,
    sessionOrderingIncrementMs := none, preserveExpiresAt := none }

/-- Binding data with session fields, no expiry. -/
def sessionBindingData : ServiceBusBindingData :=
  { messageId := some "orig-7", enqueuedTimeUtc := none, expiresAtUtc := none,
    sessionId := some "D", sequenceNumber := some 12 }

/-- Trigger metadata of a redelivery. -/
def mainMeta : TriggerMetadata :=
  { messageId := some "cur-2", enqueuedTimeUtc := none, expiresAtUtc := none,
    sessionId := none, sequenceNumber := none }

theorem c2_envelope_roundtrip_witness :
    ((⟨⟨(), sessionBindingData, 3⟩, 5000, some "D", none⟩ :
        ServiceBusMessage Unit).body.publishCount = 2 + 1) ∧
    ((⟨⟨(), sessionBindingData, 3⟩, 5000, some "D", none⟩ :
        ServiceBusMessage Unit).body.originalBindingData = sessionBindingData) ∧
    buildRetryInvocationContextAndMessage mainMeta
      (.wrapped (⟨⟨(), sessionBindingData, 3⟩, 5000, some "D", none⟩ :
        ServiceBusMessage Unit).body) = (sessionBindingData, 2 + 1, ()) ∧
    (∀ meta2 : TriggerMetadata,
      buildRetryInvocationContextAndMessage (T := Unit) meta2
        (.wrapped (⟨⟨(), sessionBindingData, 3⟩, 5000, some "D", none⟩ :
          ServiceBusMessage Unit).body) =
      buildRetryInvocationContextAndMessage mainMeta
        (.wrapped (⟨⟨(), sessionBindingData, 3⟩, 5000, some "D", none⟩ :
          ServiceBusMessage Unit).body)) := by
  have hb : calculateBackoffSeconds
      { maxRetries := 3, retryStrategy := some "fixed", delaySeconds := 5,
        maxDelaySeconds := none, exponentialFactor := none,
        linearIncreaseSeconds := none, jitter := none } 1 0 = .ok 5 := by
    simp [calculateBackoffSeconds, rawStrategyDelay]
    rw [show (5 : Rat) = ((5 : Int) : Rat) by norm_num, jsRound_intCast]
    omega
  have hpub : (executeWithRetries (S := Unit) plainConfig mainMeta
      (.wrapped ⟨(), sessionBindingData, 2⟩) .failure [] 0 0).published =
      [⟨⟨(), sessionBindingData, 3⟩, 5000, some "D", none⟩] := by
    simp [executeWithRetries, buildRetryInvocationContextAndMessage,
      rescheduleForSessionOrderingIfNeeded, resendWithDelay, hb, resendMessage,
      applyTtlIfNeeded, ttlAllowsOrderingEntry, plainConfig, sessionBindingData,
      mainMeta]
  exact c2_envelope_roundtrip plainConfig mainMeta ⟨(), sessionBindingData, 2⟩
    [] 0 0 _ rfl hpub

/-- C4: a delivery whose handler fails with `publishCount > maxRetries`
raises `MaxRetriesReachedError`, publishes nothing, and — when ordering is
active — the store entry of its session and sequence number is removed. -/
theorem c4_max_retries_exhaustion {T S : Type}
    (cfg : ServiceBusRetryConfiguration) (meta : TriggerMetadata)
    (incoming : IncomingMessage T) (bd : ServiceBusBindingData) (pc : Int)
    (payload : T) (store : Store) (now : Int) (rand : Rat)
    (hbuild : buildRetryInvocationContextAndMessage meta incoming = (bd, pc, payload))
    (hdef : rescheduleForSessionOrderingIfNeeded cfg bd meta.messageId
      ⟨payload, bd, pc⟩ store now = none)
    (hmax : cfg.maxRetries < pc) :
    (executeWithRetries (S := S) cfg meta incoming .failure store now rand).outcome =
      .error (.maxRetriesReached bd.messageId meta.messageId) ∧
    (executeWithRetries (S := S) cfg meta incoming .failure store now rand).published = [] ∧
    ∀ sid sq, cfg.preserveSessionOrdering = some true → bd.sessionId = some sid →
      bd.sequenceNumber = some sq →
      (executeWithRetries (S := S) cfg meta incoming .failure store now rand).store =
        removeScheduledEntry store sid sq := by
  refine ⟨?_, ?_, ?_⟩
  · simp [executeWithRetries, hbuild, hdef, hmax]
  · simp [executeWithRetries, hbuild, hdef, hmax]
  · intro sid sq hf hs hq
    simp [executeWithRetries, hbuild, hdef, hmax, hf, hs, hq]

theorem c4_max_retries_exhaustion_witness :
    (executeWithRetries (S := Unit) orderingConfig mainMeta
      (.wrapped ⟨(), sessionBindingData, 4⟩) .failure [] 0 0).outcome =
      .error (.maxRetriesReached (some "orig-7") (some "cur-2")) ∧
    (executeWithRetries (S := Unit) orderingConfig mainMeta
      (.wrapped ⟨(), sessionBindingData, 4⟩) .failure [] 0 0).published = [] ∧
    (executeWithRetries (S := Unit) orderingConfig mainMeta
      (.wrapped ⟨(), sessionBindingData, 4⟩) .failure [] 0 0).store =
      removeScheduledEntry [] "D" 12 := by
  have h := c4_max_retries_exhaustion (S := Unit) orderingConfig mainMeta
    (.wrapped ⟨(), sessionBindingData, 4⟩) sessionBindingData 4 () [] 0 0
    rfl rfl (by decide)
  exact ⟨h.1, h.2.1, h.2.2 "D" 12 rfl rfl rfl⟩

theorem mem_add_self (store : Store) (sid : String) (sq t : Int) :
    (⟨sq, t⟩ : ScheduledEntry) ∈ (storeGet (addScheduledEntry store sid sq t) sid).getD [] := by
  rw [storeGet_addScheduledEntry]
  simp

theorem mem_add_mono (store : Store) (sid : String) (x : ScheduledEntry)
    (hx : x ∈ (storeGet store sid).getD []) (sq2 t2 : Int) :
    x ∈ (storeGet (addScheduledEntry store sid sq2 t2) sid).getD [] := by
  rw [storeGet_addScheduledEntry]
  simp only [Option.getD_some]
  exact List.mem_append_left _ hx

theorem c8_store_add_condition_witness :
    (resendMessage plainConfig liveBindingData (some "w1")
       ⟨(), liveBindingData, 2⟩ [("Z", [⟨1, 5⟩])] 200 700).store = [("Z", [⟨1, 5⟩])] ∧
    (resendMessage orderingConfig sessionBindingData (some "w2")
       ⟨(), sessionBindingData, 2⟩ [] 200 700).store =
      addScheduledEntry [] "D" 12 700 := by
  have h1 := (c8_store_add_condition plainConfig liveBindingData (some "w1")
    ⟨(), liveBindingData, 2⟩ [("Z", [⟨1, 5⟩])] 200 700).1 (by simp [plainConfig])
  have h2 := (c8_store_add_condition orderingConfig sessionBindingData (some "w2")
    ⟨(), sessionBindingData, 2⟩ [] 200 700).2 "D" 12
    ⟨⟨(), sessionBindingData, 2⟩, 700, some "D", none⟩ rfl rfl rfl
    (by simp [resendMessage, applyTtlIfNeeded, orderingConfig, sessionBindingData])
  simp only [ttlAllowsOrderingEntry] at h2
  exact ⟨h1, h2⟩

/-- Trigger metadata of a first delivery in session `B`, sequence 10,
whose original expiry (epoch ms 50) has already passed at evaluation
instant 100. -/
def expiredDeferralMeta : TriggerMetadata :=
  { messageId := some "cur-6", enqueuedTimeUtc := none, expiresAtUtc := some 50,
    sessionId := some "B", sequenceNumber := some 10 }

/-- A store holding a future entry for sequence 5 of session `B`. -/
def deferralStore : Store := [("B", [⟨5, 10000⟩])]

/-- C6 counterexample: an ordering deferral (lower-sequence entry scheduled
in the future, handler never reached) of an already-expired message fails
with `MessageExpiredError` and republishes nothing — expiry is evaluated on
the deferral republish path, not only when a retry is scheduled after a
handler failure. -/
theorem c6_counterexample :
    orderingConfig.preserveSessionOrdering = some true ∧
    getLatestScheduledTimeForLowerSequence deferralStore "B" 10 = some 10000 ∧
    (100 : Int) < 10000 ∧
    (executeWithRetries (S := Unit) orderingConfig expiredDeferralMeta
      (.raw ()) (.success ()) deferralStore 100 0).published = [] ∧
    (executeWithRetries (S := Unit) orderingConfig expiredDeferralMeta
      (.raw ()) (.success ()) deferralStore 100 0).outcome =
      .error (.messageExpired (some "cur-6") (some "cur-6")) := by
  refine ⟨rfl, by decide, by decide, ?_, ?_⟩ <;>
    simp [executeWithRetries, buildRetryInvocationContextAndMessage,
      rescheduleForSessionOrderingIfNeeded, resendMessage, applyTtlIfNeeded,
      getLatestScheduledTimeForLowerSequence, storeGet, latestLowerIn,
      removeScheduledEntry, removeSeqOnce, orderingConfig, expiredDeferralMeta,
      deferralStore]

/-- C6 (amended): expiry is evaluated on every republish attempt — both the
failure-driven retry and the ordering deferral — and never before the
handler runs: an invocation that reaches the handler and succeeds returns
the handler result even if the message is past its original expiry, while a
deferral of an already-expired message fails with `MessageExpiredError` and
publishes nothing. -/
theorem c6_lazy_expiry {T S : Type} (cfg : ServiceBusRetryConfiguration)
    (meta : TriggerMetadata) (incoming : IncomingMessage T)
    (bd : ServiceBusBindingData) (pc : Int) (payload : T) (store : Store)
    (now : Int) (rand : Rat) (s : S)
    (hbuild : buildRetryInvocationContextAndMessage meta incoming = (bd, pc, payload)) :
    (rescheduleForSessionOrderingIfNeeded cfg bd meta.messageId
        ⟨payload, bd, pc⟩ store now = none →
      (executeWithRetries cfg meta incoming (.success s) store now rand).outcome =
        .ok (some s)) ∧
    (∀ (ho : HandlerOutcome S) sid sq latest e,
      cfg.preserveSessionOrdering = some true → bd.sessionId = some sid →
      bd.sequenceNumber = some sq →
      getLatestScheduledTimeForLowerSequence store sid sq = some latest →
      now < latest → cfg.preserveExpiresAt ≠ some false →
      bd.expiresAtUtc = some e → e ≤ now →
      (executeWithRetries cfg meta incoming ho store now rand).outcome =
        .error (.messageExpired bd.messageId meta.messageId) ∧
      (executeWithRetries cfg meta incoming ho store now rand).published = []) := by
  constructor
  · intro hdef
    simp [executeWithRetries, hbuild, hdef]
  · intro ho sid sq latest e hf hs hq hlat hfut hpe hee hle
    have httl : e - now ≤ 0 := by omega
    constructor <;>
      simp [executeWithRetries, hbuild, rescheduleForSessionOrderingIfNeeded,
        hf, hs, hq, hlat, hfut, resendMessage, applyTtlIfNeeded, hpe, hee, httl]

theorem c6_lazy_expiry_witness :
    (executeWithRetries (S := Unit) plainConfig mainMeta
      (.wrapped ⟨(), expiredBindingData, 2⟩) (.success ()) [] 200 0).outcome =
      .ok (some ()) ∧
    (executeWithRetries (S := Unit) orderingConfig expiredDeferralMeta
      (.raw ()) .failure deferralStore 200 0).outcome =
      .error (.messageExpired (some "cur-6") (some "cur-6")) ∧
    (executeWithRetries (S := Unit) orderingConfig expiredDeferralMeta
      (.raw ()) .failure deferralStore 200 0).published = [] := by
  have h1 := (c6_lazy_expiry plainConfig mainMeta
    (.wrapped ⟨(), expiredBindingData, 2⟩) expiredBindingData 2 () [] 200 0 ()
    rfl).1 rfl
  have h2 := (c6_lazy_expiry (S := Unit) orderingConfig expiredDeferralMeta
    (.raw ()) ⟨some "cur-6", none, some 50, some "B", some 10⟩ 1 ()
    deferralStore 200 0 () rfl).2 .failure "B" 10 10000 50 rfl rfl rfl
    (by decide) (by decide) (by simp [orderingConfig]) rfl (by omega)
  exact ⟨h1, h2.1, h2.2⟩

/-- Trigger metadata of a first delivery in session `E`, sequence 9, with
original expiry epoch ms 30, already past at instant 60. -/
def expiredDeferralMeta2 : TriggerMetadata :=
  { messageId := some "cur-7x", enqueuedTimeUtc := none, expiresAtUtc := some 30,
    sessionId := some "E", sequenceNumber := some 9 }

/-- A store holding a future entry for sequence 4 of session `E`. -/
def deferralStore2 : Store := [("E", [⟨4, 7000⟩])]

/-- C7 counterexample: an arriving message with ordering active and a
lower-sequence entry still scheduled in the future is not republished when
its preserved expiry has passed — the invocation fails with
`MessageExpiredError` instead of republishing the unmodified envelope. -/
theorem c7_counterexample :
    orderingConfig.preserveSessionOrdering = some true ∧
    getLatestScheduledTimeForLowerSequence deferralStore2 "E" 9 = some 7000 ∧
    (60 : Int) < 7000 ∧
    (executeWithRetries (S := Unit) orderingConfig expiredDeferralMeta2
      (.raw ()) (.success ()) deferralStore2 60 0).published = [] ∧
    (executeWithRetries (S := Unit) orderingConfig expiredDeferralMeta2
      (.raw ()) (.success ()) deferralStore2 60 0).outcome =
      .error (.messageExpired (some "cur-7x") (some "cur-7x")) := by
  refine ⟨rfl, by decide, by decide, ?_, ?_⟩ <;>
    simp [executeWithRetries, buildRetryInvocationContextAndMessage,
      rescheduleForSessionOrderingIfNeeded, resendMessage, applyTtlIfNeeded,
      getLatestScheduledTimeForLowerSequence, storeGet, latestLowerIn,
      removeScheduledEntry, removeSeqOnce, orderingConfig, expiredDeferralMeta2,
      deferralStore2]

/-- C7 (amended): an arriving message with ordering active, a lower-sequence
entry scheduled in the future, and an expiry guard that passes (expiry not
preserved, no recorded expiry, or expiry still ahead) is deferred: an entry
for its sequence at `latest + increment` is recorded, the unmodified
envelope (same payload, binding data and publish count) is republished at
`latest + increment` with session affinity, the invocation returns without
error, and the result does not depend on the handler outcome — the handler
is never invoked. -/
theorem c7_deferral_behavior {T S : Type} (cfg : ServiceBusRetryConfiguration)
    (meta : TriggerMetadata) (incoming : IncomingMessage T)
    (bd : ServiceBusBindingData) (pc : Int) (payload : T) (store : Store)
    (now : Int) (rand : Rat) (sid : String) (sq latest : Int)
    (ho ho2 : HandlerOutcome S)
    (hbuild : buildRetryInvocationContextAndMessage meta incoming = (bd, pc, payload))
    (hf : cfg.preserveSessionOrdering = some true) (hs : bd.sessionId = some sid)
    (hq : bd.sequenceNumber = some sq)
    (hlat : getLatestScheduledTimeForLowerSequence store sid sq = some latest)
    (hfut : now < latest)
    (hexp : cfg.preserveExpiresAt = some false ∨ bd.expiresAtUtc = none ∨
      ∃ e, bd.expiresAtUtc = some e ∧ now < e) :
    (∃ m, (executeWithRetries cfg meta incoming ho store now rand).published = [m] ∧
       m.body = ⟨payload, bd, pc⟩ ∧
       m.scheduledEnqueueTimeUtc = latest + cfg.sessionOrderingIncrementMs.getD 1000 ∧
       m.sessionId = some sid) ∧
    (executeWithRetries cfg meta incoming ho store now rand).outcome = .ok none ∧
    (⟨sq, latest + cfg.sessionOrderingIncrementMs.getD 1000⟩ : ScheduledEntry) ∈
      (storeGet (executeWithRetries cfg meta incoming ho store now rand).store sid).getD [] ∧
    executeWithRetries cfg meta incoming ho store now rand =
      executeWithRetries cfg meta incoming ho2 store now rand := by
  rcases hexp with hpe | hen | ⟨e, hee, hlt⟩
  · refine ⟨⟨⟨⟨payload, bd, pc⟩,
        latest + cfg.sessionOrderingIncrementMs.getD 1000, some sid, none⟩,
        ?_, rfl, rfl, rfl⟩, ?_, ?_, ?_⟩ <;>
      simp [executeWithRetries, hbuild, rescheduleForSessionOrderingIfNeeded,
        hf, hs, hq, hlat, hfut, resendMessage, applyTtlIfNeeded, hpe,
        ttlAllowsOrderingEntry, mem_add_mono, mem_add_self]
  · refine ⟨⟨⟨⟨payload, bd, pc⟩,
        latest + cfg.sessionOrderingIncrementMs.getD 1000, some sid, none⟩,
        ?_, rfl, rfl, rfl⟩, ?_, ?_, ?_⟩ <;>
      simp [executeWithRetries, hbuild, rescheduleForSessionOrderingIfNeeded,
        hf, hs, hq, hlat, hfut, resendMessage, applyTtlIfNeeded, hen,
        ttlAllowsOrderingEntry, mem_add_mono, mem_add_self]
  · have hnle : ¬(e - now ≤ 0) := by omega
    by_cases hpe : cfg.preserveExpiresAt = some false
    · refine ⟨⟨⟨⟨payload, bd, pc⟩,
          latest + cfg.sessionOrderingIncrementMs.getD 1000, some sid, none⟩,
          ?_, rfl, rfl, rfl⟩, ?_, ?_, ?_⟩ <;>
        simp [executeWithRetries, hbuild, rescheduleForSessionOrderingIfNeeded,
          hf, hs, hq, hlat, hfut, resendMessage, applyTtlIfNeeded, hpe,
          ttlAllowsOrderingEntry, mem_add_mono, mem_add_self]
    · refine ⟨⟨⟨⟨payload, bd, pc⟩,
          latest + cfg.sessionOrderingIncrementMs.getD 1000, some sid,
          some (e - now)⟩, ?_, rfl, rfl, rfl⟩, ?_, ?_, ?_⟩ <;>
        simp [executeWithRetries, hbuild, rescheduleForSessionOrderingIfNeeded,
          hf, hs, hq, hlat, hfut, resendMessage, applyTtlIfNeeded, hpe, hee,
          hnle, ttlAllowsOrderingEntry]
      by_cases httl : 1 < e - now <;>
        simp [httl, mem_add_mono, mem_add_self]

/-- Trigger metadata of a live first delivery in session `F`, sequence 20,
no expiry recorded. -/
def liveDeferralMeta : TriggerMetadata :=
  { messageId := some "cur-7w", enqueuedTimeUtc := none, expiresAtUtc := none,
    sessionId := some "F", sequenceNumber := some 20 }

/-- A store holding a future entry for sequence 3 of session `F`. -/
def deferralStore3 : Store := [("F", [⟨3, 9000⟩])]

theorem c7_deferral_behavior_witness :
    (∃ m, (executeWithRetries (S := Unit) orderingConfig liveDeferralMeta
        (.raw ()) (.success ()) deferralStore3 100 0).published = [m] ∧
      m.body = ⟨(), ⟨some "cur-7w", none, none, some "F", some 20⟩, 1⟩ ∧
      m.scheduledEnqueueTimeUtc =
        9000 + orderingConfig.sessionOrderingIncrementMs.getD 1000 ∧
      m.sessionId = some "F") ∧
    (executeWithRetries (S := Unit) orderingConfig liveDeferralMeta
      (.raw ()) (.success ()) deferralStore3 100 0).outcome = .ok none ∧
    (⟨20, 9000 + orderingConfig.sessionOrderingIncrementMs.getD 1000⟩ : ScheduledEntry) ∈
      (storeGet (executeWithRetries (S := Unit) orderingConfig liveDeferralMeta
        (.raw ()) (.success ()) deferralStore3 100 0).store "F").getD [] ∧
    executeWithRetries (S := Unit) orderingConfig liveDeferralMeta
      (.raw ()) (.success ()) deferralStore3 100 0 =
    executeWithRetries (S := Unit) orderingConfig liveDeferralMeta
      (.raw ()) .failure deferralStore3 100 0 :=
  c7_deferral_behavior orderingConfig liveDeferralMeta (.raw ())
    ⟨some "cur-7w", none, none, some "F", some 20⟩ 1 () deferralStore3 100 0
    "F" 20 9000 (.success ()) .failure rfl rfl rfl rfl (by decide) (by decide)
    (Or.inr (Or.inl rfl))
